import Mathlib

/-!
# VoiceCraft first-run setup manager — verification of the spec against the code

Shallow embedding of the R2 archive installer (`src/unnamed/part_005`, class
`SetupManager`), of the legacy installer's system prober
(`src/electron/setup.js`), and of the launch gate (`src/electron/main.js`,
`needsSetup`).  Effects (child-process probes, HTTP responses, file system)
are passed in explicitly as environment records; machine numbers are `Nat`,
`Int` and `Rat` (JavaScript number arithmetic on the values that occur here is
exact), and fallible steps are `Except`.
-/

set_option linter.unreachableTactic false
set_option linter.unusedTactic false

namespace VoiceCraft

/-- `SETUP_VERSION` constant (part_005 line 19): bumped when the archive
format changes, to force re-setup. -/
def SETUP_VERSION : Nat := 2

/-- `MIN_FREE_SPACE_GB` constant (part_005 line 22). -/
def MIN_FREE_SPACE_GB : Nat := 10

/-- `MIN_VRAM_GB` constant (part_005 line 61). -/
def MIN_VRAM_GB : Nat := 4

/-- JavaScript `Math.round` on a nonnegative number, and also the integer
`n` chosen by `Number.prototype.toFixed(1)` applied to `q/10` (round to
nearest, ties toward the larger value): `⌊q + 1/2⌋`. -/
def jsRound (q : ℚ) : ℤ := ⌊q + 1/2⌋

theorem jsRound_mono {q q' : ℚ} (h : q ≤ q') : jsRound q ≤ jsRound q' :=
  Int.floor_le_floor (add_le_add_right h _)

theorem jsRound_intCast (n : ℤ) : jsRound (n : ℚ) = n := by
  unfold jsRound
  rw [add_comm, Int.floor_add_int]
  norm_num

theorem jsRound_natCast (n : ℕ) : jsRound (n : ℚ) = (n : ℤ) := by
  have := jsRound_intCast (n : ℤ)
  rwa [Int.cast_natCast] at this

-- ─── System prober (part_005 lines 48–116; legacy variant setup.js 40–110) ───

/-- Outcomes of the host probes `checkSystem` runs: `findPython`, the
`python --version` child process, the two `nvidia-smi` queries and the
`wmic` free-space query.  `.error ()` models the child process throwing
(tool missing, timeout, unparsable output line). -/
structure ProbeEnv where
  platformWin32 : Bool
  pythonPath : Option String
  pythonVersionRun : Except Unit String
  gpuNameRun : Except Unit String
  gpuVramRun : Except Unit Nat
  diskFreeRun : Except Unit Nat

/-- The `info` object `checkSystem` fills in (part_005 lines 49–59).
`gpuVram` is the GB value rounded to one decimal; `availableSpace` is the
`"<freeGB> GB"` string. -/
structure SystemInfo where
  hasPython : Bool
  pythonVersion : Option String
  hasNvidiaGpu : Bool
  gpuName : Option String
  gpuVram : ℚ
  hasEnoughVram : Bool
  hasEnoughSpace : Bool
  availableSpace : String
  deriving Repr, DecidableEq

/-- Render `tenths/10` the way `toFixed(1)` does for nonnegative values. -/
def tenthsToString (t : ℤ) : String :=
  s!"{t.toNat / 10}.{t.toNat % 10}"

/-- `checkSystem` of part_005, parameterised by the disk-space predicate on
the rounded tenths-of-GB value so that the legacy variant (setup.js, which
differs only in that one line) shares the embedding.  Each of the three
try-blocks is modelled independently; a probe that throws leaves the fields
assigned so far in place, exactly as the mutating JS code does. -/
def checkSystemWith (spaceOk : ℤ → Bool) (env : ProbeEnv) : SystemInfo :=
  let info0 : SystemInfo :=
    { hasPython := false, pythonVersion := none,
      hasNvidiaGpu := false, gpuName := none, gpuVram := 0,
      hasEnoughVram := false, hasEnoughSpace := true,
      availableSpace := "Unknown" }
  -- Check for existing Python (lines 64–73)
  let info1 :=
    match env.pythonPath with
    | none => info0
    | some _ =>
      match env.pythonVersionRun with
      | .error _ => info0
      | .ok version =>
        { info0 with
            hasPython := true,
            pythonVersion := some ((version.replace "Python " "").trim) }
  -- Check for NVIDIA GPU and VRAM (lines 76–97), win32 only
  let info2 :=
    if env.platformWin32 then
      match env.gpuNameRun with
      | .error _ => info1
      | .ok nameResult =>
        if nameResult.trim ≠ "" then
          let named :=
            { info1 with
                hasNvidiaGpu := true,
                gpuName := some ((nameResult.trim.splitOn "\n").headD "") }
          match env.gpuVramRun with
          | .error _ => named
          | .ok vramMB =>
            let vramGB : ℚ := (jsRound ((vramMB : ℚ) / 1024 * 10) : ℚ) / 10
            { named with
                gpuVram := vramGB,
                hasEnoughVram := decide ((MIN_VRAM_GB : ℚ) ≤ vramGB) }
        else info1
    else info1
  -- Check disk space (lines 100–113), win32 only
  if env.platformWin32 then
    match env.diskFreeRun with
    | .error _ => info2
    | .ok freeBytes =>
      let tenths : ℤ := jsRound ((freeBytes : ℚ) / (1024 * 1024 * 1024) * 10)
      { info2 with
          availableSpace := tenthsToString tenths ++ " GB",
          hasEnoughSpace := spaceOk tenths }
  else info2

/-- `checkSystem` of the R2 installer (part_005 line 109):
`info.hasEnoughSpace = freeGB >= MIN_FREE_SPACE_GB` — the string `freeGB`
is coerced to the rounded number. -/
def checkSystem (env : ProbeEnv) : SystemInfo :=
  checkSystemWith (fun t => decide ((MIN_FREE_SPACE_GB : ℚ) ≤ (t : ℚ) / 10)) env

/-- `checkSystem` of the legacy installer (src/electron/setup.js line 104):
`info.hasEnoughSpace = freeGB > 5`. -/
def checkSystemLegacy (env : ProbeEnv) : SystemInfo :=
  checkSystemWith (fun t => decide ((5 : ℚ) < (t : ℚ) / 10)) env

-- ─── Integrity verifier (part_005 lines 285–303) ───

/-- Payload of the rejection `verifyChecksum` builds on mismatch: the error
message embeds `expectedSha256.slice(0, 12)` and `actual.slice(0, 12)`
(line 297), not the full digest strings. -/
structure ChecksumErr where
  expectedShown : String
  actualShown : String
  deriving Repr, DecidableEq

/-- `verifyChecksum(filePath, expectedSha256)`.  The streaming SHA-256 of the
file's bytes is modelled by the environment function `hashHex` (the digest
`crypto` would produce, as a lowercase hex string); the file's content is
`content`.  Resolves `true` exactly on string equality `actual === expected`. -/
def verifyChecksum (hashHex : List Nat → String) (content : List Nat)
    (expectedSha256 : String) : Except ChecksumErr Bool :=
  let actual := hashHex content
  if actual = expectedSha256 then .ok true
  else .error { expectedShown := expectedSha256.take 12, actualShown := actual.take 12 }

-- ─── Manifest fetcher (part_005 lines 144–178) ───

/-- `ArchiveInfo` entries of the manifest. -/
structure ArchiveInfo where
  filename : String
  size : Nat
  sha256 : String
  deriving Repr, DecidableEq, Inhabited

/-- The manifest object. -/
structure Manifest where
  version : Nat
  buildDate : String
  archives : List (String × ArchiveInfo)
  deriving Repr, DecidableEq

/-- `manifest.archives[key]`. -/
def Manifest.find (m : Manifest) (k : String) : Option ArchiveInfo :=
  m.archives.lookup k

/-- One HTTP response as `fetchManifest` sees it: either the socket errored,
or a status plus, for the body, the outcome `JSON.parse` would have on it
(`some` manifest for valid JSON, `none` for a parse failure).  `location`
is the `Location` header. -/
inductive FetchResp where
  | failure (msg : String)
  | response (status : Nat) (location : String) (body : Option Manifest)

/-- What the network does on a `fetchManifest` call: the first response,
and the response to the one redirect `fetchManifest` is willing to follow. -/
structure FetchScenario where
  first : FetchResp
  second : FetchResp

/-- Error taxonomy of `fetchManifest`: socket / non-200 rejections versus
`Invalid manifest JSON` rejections from `_readJson`. -/
inductive FetchErr where
  | network (msg : String)
  | parse
  deriving Repr, DecidableEq

/-- `_readJson` (lines 167–178): buffer the body, resolve `JSON.parse` or
reject with a parse error. -/
def readJson (body : Option Manifest) : Except FetchErr Manifest :=
  match body with
  | some m => .ok m
  | none => .error .parse

/-- `fetchManifest` (lines 144–165).  A 301/302 first response is followed
once; the redirected response's body goes straight to `_readJson` — its
status code is never examined.  A non-200, non-redirect first status
rejects with the `Failed to fetch manifest` network error. -/
def fetchManifest (scen : FetchScenario) : Except FetchErr Manifest :=
  match scen.first with
  | .failure msg => .error (.network msg)
  | .response status _ body =>
    if status = 301 ∨ status = 302 then
      match scen.second with
      | .failure msg => .error (.network msg)
      | .response _ _ body2 => readJson body2
    else if status ≠ 200 then
      .error (.network s!"Failed to fetch manifest: HTTP {status}")
    else readJson body

-- ─── Resumable downloader (part_005 lines 184–280) ───

/-- A terminal (non-redirect, or any) HTTP response to the archive GET:
status code, `Location` header, the body as the chunk sequence the `data`
events deliver, and the parsed `content-length` header. -/
structure Resp where
  status : Nat
  location : String
  chunks : List (List Nat)
  contentLength : Nat
  deriving Repr, DecidableEq

/-- Observable outcome of one `downloadFileWithResume` call: the settled
promise, the files at `destPath` and `destPath + '.partial'` afterwards,
the `(downloaded, totalSize)` pairs passed to `progressCb`, the `Range`
start byte sent (if any), whether the write stream was opened with flags
`'a'` (`some true`) or `'w'` (`some false`), and the post-status-check
value of `startByte`. -/
structure DLOutcome where
  result : Except String Unit
  dest : Option (List Nat)
  partFile : Option (List Nat)
  progress : List (Nat × Nat)
  rangeSent : Option Nat
  appendMode : Option Bool
  effStart : Option Nat
  deriving Repr

/-- Cumulative `(downloaded, totalSize)` pairs: `downloaded` starts at the
(post-reset) start byte and grows by each chunk's length (lines 235–242). -/
def progressOf (start total : Nat) : List (List Nat) → List (Nat × Nat)
  | [] => []
  | c :: cs => (start + c.length, total) :: progressOf (start + c.length) total cs

/-- The body of the promise in `downloadFileWithResume` once a terminal
response (or socket error) is at hand, given the partial file's content
`part0` and any pre-existing file `dest0` at `destPath` (lines 200–279). -/
def downloadCore (expectedSize : Nat) (part0 : Option (List Nat))
    (dest0 : Option (List Nat)) (resp : Except String Resp) : DLOutcome :=
  let startByte := (part0.map List.length).getD 0
  let range := if startByte > 0 then some startByte else none
  match resp with
  | .error msg =>
    { result := .error msg, dest := dest0, partFile := part0,
      progress := [], rangeSent := range, appendMode := none, effStart := none }
  | .ok r =>
    if r.status ≠ 200 ∧ r.status ≠ 206 then
      { result := .error s!"Download failed: HTTP {r.status}",
        dest := dest0, partFile := part0, progress := [],
        rangeSent := range, appendMode := none, effStart := none }
    else
      -- 200: server sent the full file, start from scratch (line 225)
      let startByte' := if r.status = 200 then 0 else startByte
      -- flags = startByte > 0 && res.statusCode === 206 ? 'a' : 'w' (line 231)
      let append := startByte' > 0 ∧ r.status = 206
      let base := if append then part0.getD [] else []
      let content := base ++ r.chunks.flatten
      let totalSize := if expectedSize ≠ 0 then expectedSize
                       else r.contentLength + startByte'
      { result := .ok (), dest := some content, partFile := none,
        progress := if totalSize = 0 then [] else progressOf startByte' totalSize r.chunks,
        rangeSent := range, appendMode := some (decide append),
        effStart := some startByte' }

/-- The pre-promise check of lines 189–198: a partial file whose size already
reaches a nonzero `expectedSize` is renamed to `destPath` with no request. -/
def promotes (expectedSize : Nat) (part0 : Option (List Nat)) : Bool :=
  match part0 with
  | some p => expectedSize ≠ 0 && expectedSize ≤ p.length
  | none => false

/-- `downloadFileWithResume(url, destPath, expectedSize, progressCb)` with
the terminal response `resp` the request chain produced (redirect hops are
collapsed here; they are modelled by `ReachesResp` below). -/
def downloadFileWithResume (expectedSize : Nat) (part0 : Option (List Nat))
    (dest0 : Option (List Nat)) (resp : Except String Resp) : DLOutcome :=
  if promotes expectedSize part0 then
    { result := .ok (), dest := part0, partFile := none, progress := [],
      rangeSent := none, appendMode := none, effStart := none }
  else downloadCore expectedSize part0 dest0 resp

-- ─── Redirect recursion of makeRequest (part_005 lines 206–278) ───

/-- Line 217: a response with status 301 or 302 makes `makeRequest` recurse
on the `Location` header. -/
def isRedirect (r : Resp) : Bool := r.status == 301 || r.status == 302

/-- `ReachesResp server range url out`: starting `makeRequest(url)` with a
server that answers `server u range` to a GET for `u` (the closed-over
`headers`, hence the `Range` start byte, is re-sent unchanged on every
hop), the recursion arrives at the non-redirect outcome `out`.  The
promise of `downloadFileWithResume` settles only through such a
derivation: each 301/302 response merely recurses (line 218), rejecting
nothing and resolving nothing. -/
inductive ReachesResp (server : String → Option Nat → Except String Resp)
    (range : Option Nat) : String → Except String Resp → Prop where
  | fail {u : String} {e : String} (h : server u range = .error e) :
      ReachesResp server range u (.error e)
  | done {u : String} {r : Resp} (h : server u range = .ok r)
      (hnr : isRedirect r = false) : ReachesResp server range u (.ok r)
  | hop {u : String} {r : Resp} {out : Except String Resp}
      (h : server u range = .ok r) (hr : isRedirect r = true)
      (htail : ReachesResp server range r.location out) :
      ReachesResp server range u out

/-- The `Range` start byte `downloadFileWithResume` fixes before issuing the
first request (lines 186–204). -/
def rangeOf (part0 : Option (List Nat)) : Option Nat :=
  match part0 with
  | some p => if p.length > 0 then some p.length else none
  | none => none

/-- `Settles server url expectedSize part0 dest0 o`: the promise returned by
`downloadFileWithResume(url, …)` settles, with observable outcome `o`:
either the partial file is promoted with no request at all, or the
redirect recursion reaches a terminal outcome and the response handler
runs on it. -/
def Settles (server : String → Option Nat → Except String Resp) (url : String)
    (expectedSize : Nat) (part0 dest0 : Option (List Nat)) (o : DLOutcome) : Prop :=
  if promotes expectedSize part0 then
    o = downloadFileWithResume expectedSize part0 dest0 (.error "unused")
  else
    ∃ resp, ReachesResp server (rangeOf part0) url resp ∧
      o = downloadCore expectedSize part0 dest0 resp

-- ─── Archive pipeline: downloadAndInstallArchive (part_005 lines 336–383) ───

/-- Per-archive environment: the partial and destination files on disk when
the archive's turn comes, the terminal response of its download request
chain, and the outcome of `extractZip` (which itself is the two-tier
tar-then-PowerShell attempt; `.error` means both tiers failed). -/
structure ArchiveEnv where
  part0 : Option (List Nat)
  dest0 : Option (List Nat)
  resp : Except String Resp
  extractRun : Except String Unit

/-- Observable outcome of `downloadAndInstallArchive`: the settled promise,
the `setup-progress` events it emitted as `(stage, percent)` pairs, the
content the download left at `zipPath` (for a post-mortem digest statement;
the zip itself is unlinked on success), and the file left at `zipPath`. -/
structure ArchiveOut where
  result : Except String Unit
  events : List (String × ℤ)
  downloadedContent : Option (List Nat)
  fileDest : Option (List Nat)

/-- The percent a download progress callback emits (lines 349–354):
`Math.round(progressStart + dlPct * (progressEnd - progressStart) * 0.7)`. -/
def pct70 (pS pE : ℕ) (d t : ℕ) : ℤ :=
  jsRound ((pS : ℚ) + (d : ℚ) / (t : ℚ) * ((pE : ℚ) - (pS : ℚ)) * (7/10))

/-- `downloadAndInstallArchive(archiveInfo, archiveKey, progressStart,
progressEnd, uiStage)`: download → verify → extract → cleanup, emitting
staged progress (the message strings are dropped; only stage and percent
are kept).  A checksum failure unlinks the zip and rethrows. -/
def downloadAndInstallArchive (hashHex : List Nat → String) (info : ArchiveInfo)
    (pS pE : ℕ) (uiStage : String) (env : ArchiveEnv) : ArchiveOut :=
  let o := downloadFileWithResume info.size env.part0 env.dest0 env.resp
  let ev0 := (uiStage, (pS : ℤ)) :: o.progress.map (fun p => (uiStage, pct70 pS pE p.1 p.2))
  match o.result with
  | .error e => { result := .error e, events := ev0,
                  downloadedContent := none, fileDest := o.dest }
  | .ok () =>
    let content := o.dest.getD []
    let evV := ev0 ++ [(uiStage, jsRound ((pS : ℚ) + ((pE : ℚ) - (pS : ℚ)) * (7/10)))]
    match verifyChecksum hashHex content info.sha256 with
    | .error ce =>
      { result := .error s!"Checksum mismatch: expected {ce.expectedShown}..., got {ce.actualShown}...",
        events := evV, downloadedContent := o.dest, fileDest := none }
    | .ok _ =>
      let evE := evV ++ [(uiStage, jsRound ((pS : ℚ) + ((pE : ℚ) - (pS : ℚ)) * (8/10)))]
      match env.extractRun with
      | .error e => { result := .error e, events := evE,
                      downloadedContent := o.dest, fileDest := o.dest }
      | .ok () =>
        { result := .ok (), events := evE ++ [(uiStage, (pE : ℤ))],
          downloadedContent := o.dest, fileDest := none }

-- ─── Setup orchestrator: runSetup (part_005 lines 387–488) ───

/-- `archiveStageMap` plus its `|| { uiStage: 'dependencies', pStart: 25,
pEnd: 70 }` fallback (lines 437–450): UI stage name and progress range per
archive key. -/
def stageOf (k : String) : String × ℕ × ℕ :=
  if k = "python-core" then ("python", 5, 25)
  else if k = "pytorch-nvidia-cu121" then ("dependencies", 25, 55)
  else if k = "pytorch-cpu" then ("dependencies", 25, 55)
  else if k = "packages" then ("dependencies", 55, 70)
  else if k = "models-turbo" then ("model", 70, 95)
  else ("dependencies", 25, 70)

/-- Step 2 of `runSetup` (lines 405–420): the archive key list, with the
CPU→GPU fallback when no `pytorch-cpu` archive is published. -/
def archiveKeys (useGpu : Bool) (m : Manifest) : List String :=
  ["python-core"] ++
  (if useGpu then ["pytorch-nvidia-cu121"]
   else if (m.find "pytorch-cpu").isSome then ["pytorch-cpu"]
   else ["pytorch-nvidia-cu121"]) ++
  ["packages", "models-turbo"]

/-- The `.setup-complete` JSON object written at step 5 (lines 471–479). -/
structure Marker where
  setupVersion : Nat
  model : String
  useGpu : Bool
  manifestVersion : Nat
  buildDate : String
  deriving Repr, DecidableEq

/-- Environment of one `runSetup(options)` call: the options, the outcome of
the manifest fetch, the digest function, each archive's on-disk/network
environment, the abort flag as sampled at the top of iteration `i`, and
the outcomes of the `python310._pth` fixup and of the marker write. -/
structure SetupEnv where
  useGpu : Bool
  modelOpt : Option String
  manifestRun : Except String Manifest
  hashHex : List Nat → String
  archEnv : String → ArchiveEnv
  abortedAt : Nat → Bool
  fixupRun : Except String Unit
  markerRun : Except String Unit

/-- Observable outcome of `runSetup`: the settled promise, the marker file
written (if any), and the emitted `(stage, percent)` events. -/
structure RunOut where
  result : Except String Unit
  marker : Option Marker
  events : List (String × ℤ)

/-- The step-3 loop (lines 445–454): check the abort flag, look the archive
up, install it; stop at the first failure.  `i` is the iteration index. -/
def installLoop (env : SetupEnv) (m : Manifest) :
    List String → Nat → Except String Unit × List (String × ℤ)
  | [], _ => (.ok (), [])
  | k :: ks, i =>
    if env.abortedAt i then (.error "Setup cancelled", [])
    else
      match m.find k with
      | none => (.error s!"Archive \"{k}\" missing", [])
      | some info =>
        let s := stageOf k
        let out := downloadAndInstallArchive env.hashHex info s.2.1 s.2.2 s.1 (env.archEnv k)
        match out.result with
        | .error e => (.error e, out.events)
        | .ok () =>
          let rest := installLoop env m ks (i + 1)
          (rest.1, out.events ++ rest.2)

/-- The try-block of `runSetup(options)` (lines 388–482): result, marker
written, events emitted.  The marker is written only at step 5, after
every archive and the fixup succeeded. -/
def runSetupBody (env : SetupEnv) :
    Except String Unit × Option Marker × List (String × ℤ) :=
  match env.manifestRun with
    | .error e =>
      (.error s!"Cannot reach download server: {e}. Check your internet connection.",
       none, [("python", 2)])
    | .ok m =>
      let keys := archiveKeys env.useGpu m
      match keys.find? (fun k => (m.find k).isNone) with
      | some k =>
        (.error s!"Archive \"{k}\" not found in manifest. The download server may need updating.",
         none, [("python", 2)])
      | none =>
        let loop := installLoop env m keys 0
        let evs0 := ("python", (2 : ℤ)) :: loop.2
        match loop.1 with
        | .error e => (.error e, none, evs0)
        | .ok () =>
          let evs1 := evs0 ++ [("model", 96)]
          match env.fixupRun with
          | .error e => (.error e, none, evs1)
          | .ok () =>
            match env.markerRun with
            | .error e => (.error e, none, evs1)
            | .ok () =>
              (.ok (),
               some { setupVersion := SETUP_VERSION, model := env.modelOpt.getD "turbo",
                      useGpu := env.useGpu, manifestVersion := m.version,
                      buildDate := m.buildDate },
               evs1 ++ [("complete", 100)])

/-- `runSetup(options)`: the try-block, then the catch of lines 483–487,
which emits the `('error', 0)` event and rethrows. -/
def runSetup (env : SetupEnv) : RunOut :=
  match runSetupBody env with
  | (.ok _, mk, evs) => { result := .ok (), marker := mk, events := evs }
  | (.error e, mk, evs) => { result := .error e, marker := mk, events := evs ++ [("error", 0)] }

-- ─── Launch gating (main.js lines 252–256; part_005 lines 490–507) ───

/-- The parsed `.setup-complete` content as the gate reads it:
`setupVersion` is `none` when the field is absent. -/
structure MarkerJson where
  setupVersion : Option Nat
  deriving Repr, DecidableEq

/-- A marker file on disk: `none` = no file; `some none` = file exists but
`JSON.parse` throws on it; `some (some d)` = parses to `d`. -/
abbrev MarkerFile := Option (Option MarkerJson)

/-- `needsSetup()` in main.js: `!fs.existsSync(setupFlagPath)` — content is
never read.  This is the check the launch path and the
`is-setup-complete` IPC handler use. -/
def needsSetup (file : MarkerFile) : Bool :=
  match file with
  | none => true
  | some _ => false

/-- `SetupManager.isSetupComplete()` (part_005 lines 490–507): missing file,
unparsable JSON, absent/zero `setupVersion` (JS falsiness of
`!data.setupVersion`), or a version below `SETUP_VERSION` all mean setup
is not complete. -/
def isSetupComplete (file : MarkerFile) : Bool :=
  match file with
  | none => false
  | some none => false
  | some (some data) =>
    let sv := data.setupVersion.getD 0
    if sv = 0 ∨ sv < SETUP_VERSION then false else true

-- ─── Auxiliary definitions for the statements below ───

/-- `rangesOk ks lo hi`: the progress sub-ranges `stageOf` assigns to the
keys in `ks` are each nonempty, sit above `lo`, follow one another
without overlap, and end below `hi`. -/
def rangesOk : List String → ℤ → ℤ → Prop
  | [], lo, hi => lo ≤ hi
  | k :: ks, lo, hi =>
    lo ≤ ((stageOf k).2.1 : ℤ) ∧ ((stageOf k).2.1 : ℤ) ≤ ((stageOf k).2.2 : ℤ) ∧
    rangesOk ks ((stageOf k).2.2 : ℤ) hi

/-- A four-archive manifest in which every declared digest is the string
`"h"`; used to drive concrete runs below. -/
def mOkEx : Manifest :=
  { version := 3, buildDate := "2025-01-01",
    archives := [("python-core", ⟨"python-core.zip", 1, "h"⟩),
                 ("pytorch-nvidia-cu121", ⟨"pytorch.zip", 1, "h"⟩),
                 ("packages", ⟨"packages.zip", 1, "h"⟩),
                 ("models-turbo", ⟨"models.zip", 1, "h"⟩)] }

/-- An environment in which every step succeeds: each archive downloads an
empty body with a 200 response and passes the (constant) digest check. -/
def envOkEx : SetupEnv :=
  { useGpu := true, modelOpt := none, manifestRun := .ok mOkEx,
    hashHex := fun _ => "h",
    archEnv := fun _ => { part0 := none, dest0 := none,
                          resp := .ok ⟨200, "", [], 0⟩, extractRun := .ok () },
    abortedAt := fun _ => false, fixupRun := .ok (), markerRun := .ok () }

/-- An environment in which the manifest fetch fails. -/
def envFailEx : SetupEnv :=
  { useGpu := true, modelOpt := none, manifestRun := .error "ENOTFOUND",
    hashHex := fun _ => "h",
    archEnv := fun _ => { part0 := none, dest0 := none,
                          resp := .ok ⟨200, "", [], 0⟩, extractRun := .ok () },
    abortedAt := fun _ => false, fixupRun := .ok (), markerRun := .ok () }

/-- An environment whose run succeeds although the `python-core` server
body (2 bytes) is longer than the manifest-declared size (1 byte): the
download progress callback then reports `downloaded > totalSize`. -/
def envC4Ex : SetupEnv :=
  { useGpu := true, modelOpt := none, manifestRun := .ok mOkEx,
    hashHex := fun _ => "h",
    archEnv := fun k =>
      if k = "python-core" then
        { part0 := none, dest0 := none,
          resp := .ok ⟨200, "", [[9, 9]], 0⟩, extractRun := .ok () }
      else
        { part0 := none, dest0 := none,
          resp := .ok ⟨200, "", [], 0⟩, extractRun := .ok () },
    abortedAt := fun _ => false, fixupRun := .ok (), markerRun := .ok () }

-- ───────────────────────────── Theorems ─────────────────────────────

/-- C7 (the code against the claim): the gate that actually decides whether
setup re-runs on launch is `needsSetup` in main.js, and it inspects only
the marker file's existence — for every content, parsable or not, and in
particular for a marker left by a version-1 install, it reports that no
setup is needed.  `isSetupComplete`, the version-aware check part_005
defines for exactly this purpose (its `SETUP_VERSION` comment promises
that bumping the constant forces re-setup), would report the setup
incomplete, but the launch path never calls it. -/
theorem needsSetup_ignores_setupVersion :
    (∀ c : Option MarkerJson, needsSetup (some c) = false) ∧
    isSetupComplete (some (some ⟨some 1⟩)) = false ∧
    1 < SETUP_VERSION :=
  ⟨fun _ => rfl, rfl, by decide⟩

/-- C6 (amended): `verifyChecksum` resolves exactly when the computed digest
hex string equals the expected string; on mismatch it rejects with an
error carrying the first 12 characters of the expected and of the actual
digest (`slice(0, 12)`), not the full strings. -/
theorem verifyChecksum_spec (hashHex : List Nat → String) (content : List Nat)
    (expected : String) :
    (verifyChecksum hashHex content expected = .ok true ↔ hashHex content = expected)
  ∧ (hashHex content ≠ expected →
      verifyChecksum hashHex content expected =
        .error { expectedShown := expected.take 12,
                 actualShown := (hashHex content).take 12 }) := by
  by_cases h : hashHex content = expected <;> simp [verifyChecksum, h]

/-- Witness for C6 at a concrete digest/expectation pair. -/
theorem verifyChecksum_spec_witness :
    verifyChecksum (fun _ => "a1b2c3d4e5f6aaaa") [3] "a1b2c3d4e5f6bbbb" =
      .error { expectedShown := "a1b2c3d4e5f6", actualShown := "a1b2c3d4e5f6" } := by
  have h := (verifyChecksum_spec (fun _ => "a1b2c3d4e5f6aaaa") [3] "a1b2c3d4e5f6bbbb").2
    (by decide)
  simpa using h

/-- Counterexample to C6 as stated: two distinct digests sharing their first
12 characters produce a rejection whose two carried strings are equal —
the error does not carry the (unequal) digest strings themselves. -/
theorem verifyChecksum_counterexample :
    verifyChecksum (fun _ => "000000000000aaaa") [0] "000000000000bbbb" =
      .error { expectedShown := "000000000000", actualShown := "000000000000" } ∧
    ("000000000000aaaa" : String) ≠ "000000000000bbbb" :=
  ⟨rfl, by decide⟩

/-- C5 (amended): `fetchManifest` rejects with a network error when the
socket errors or when the first response's status is neither 200 nor a
301/302 redirect; a 200 body is parsed, rejecting with a parse error
exactly when it is not valid JSON; and after a 301/302 the redirected
response's body is parsed the same way regardless of its status code,
which is never examined. -/
theorem fetchManifest_spec :
    (∀ scen msg, scen.first = .failure msg →
       fetchManifest scen = .error (.network msg))
  ∧ (∀ scen s loc body, scen.first = .response s loc body →
       ¬(s = 301 ∨ s = 302) → s ≠ 200 →
       fetchManifest scen = .error (.network s!"Failed to fetch manifest: HTTP {s}"))
  ∧ (∀ scen loc m, scen.first = .response 200 loc (some m) →
       fetchManifest scen = .ok m)
  ∧ (∀ scen loc, scen.first = .response 200 loc none →
       fetchManifest scen = .error .parse)
  ∧ (∀ scen s loc body msg, scen.first = .response s loc body → (s = 301 ∨ s = 302) →
       scen.second = .failure msg → fetchManifest scen = .error (.network msg))
  ∧ (∀ scen s loc body s2 loc2 m, scen.first = .response s loc body → (s = 301 ∨ s = 302) →
       scen.second = .response s2 loc2 (some m) → fetchManifest scen = .ok m)
  ∧ (∀ scen s loc body s2 loc2, scen.first = .response s loc body → (s = 301 ∨ s = 302) →
       scen.second = .response s2 loc2 none → fetchManifest scen = .error .parse) := by
  refine ⟨?_, ?_, ?_, ?_, ?_, ?_, ?_⟩
  · intro scen msg h
    obtain ⟨f, s2⟩ := scen
    cases h
    rfl
  · intro scen s loc body h hr h200
    obtain ⟨f, s2⟩ := scen
    cases h
    simp only [fetchManifest]
    rw [if_neg hr, if_pos h200]
  · intro scen loc m h
    obtain ⟨f, s2⟩ := scen
    cases h
    simp [fetchManifest, readJson]
  · intro scen loc h
    obtain ⟨f, s2⟩ := scen
    cases h
    simp [fetchManifest, readJson]
  · intro scen s loc body msg h hr h2
    obtain ⟨f, s2⟩ := scen
    cases h
    cases h2
    simp only [fetchManifest]
    rw [if_pos hr]
  · intro scen s loc body s2' loc2 m h hr h2
    obtain ⟨f, s2⟩ := scen
    cases h
    cases h2
    simp only [fetchManifest]
    rw [if_pos hr]
    rfl
  · intro scen s loc body s2' loc2 h hr h2
    obtain ⟨f, s2⟩ := scen
    cases h
    cases h2
    simp only [fetchManifest]
    rw [if_pos hr]
    rfl

/-- Witness for C5 at concrete scenarios: socket failure, a plain 500, and
a valid 200 body. -/
theorem fetchManifest_spec_witness :
    fetchManifest ⟨.failure "ECONNREFUSED", .failure ""⟩ =
      .error (.network "ECONNREFUSED") ∧
    fetchManifest ⟨.response 500 "" none, .failure ""⟩ =
      .error (.network "Failed to fetch manifest: HTTP 500") ∧
    fetchManifest ⟨.response 200 "" (some ⟨1, "d", []⟩), .failure ""⟩ =
      .ok ⟨1, "d", []⟩ := by
  obtain ⟨h1, h2, h3, -⟩ := fetchManifest_spec
  exact ⟨h1 _ "ECONNREFUSED" rfl, h2 _ 500 "" none rfl (by decide) (by decide),
         h3 _ "" ⟨1, "d", []⟩ rfl⟩

/-- Counterexample to C5 as stated: on a resume-free fetch whose first
response is a 302 redirect, a redirected response with the non-200 status
404 does not reject with a network error — its body is parsed and the
promise resolves with it. -/
theorem fetchManifest_counterexample :
    fetchManifest ⟨.response 302 "u" none, .response 404 "" (some ⟨7, "b", []⟩)⟩ =
      .ok ⟨7, "b", []⟩ ∧ (404 : Nat) ≠ 200 :=
  ⟨rfl, by decide⟩

/-- C3: on a resume attempt (nonempty partial file, so a `Range` header with
its byte length is sent) answered with status 200, the start byte is
reset to 0, the write stream is opened with flags `'w'` (overwrite, not
append), the download succeeds, and the final file at `destPath` is
exactly the full server body — not a concatenation with the partial. -/
theorem download_status200_overwrites (p : List Nat) (S : ℕ) (cs : List (List Nat))
    (loc : String) (cl : ℕ) (d0 : Option (List Nat))
    (hp : 0 < p.length) (hres : S = 0 ∨ p.length < S) :
    (downloadFileWithResume S (some p) d0 (.ok ⟨200, loc, cs, cl⟩)).rangeSent = some p.length
  ∧ (downloadFileWithResume S (some p) d0 (.ok ⟨200, loc, cs, cl⟩)).effStart = some 0
  ∧ (downloadFileWithResume S (some p) d0 (.ok ⟨200, loc, cs, cl⟩)).appendMode = some false
  ∧ (downloadFileWithResume S (some p) d0 (.ok ⟨200, loc, cs, cl⟩)).result = .ok ()
  ∧ (downloadFileWithResume S (some p) d0 (.ok ⟨200, loc, cs, cl⟩)).dest = some cs.flatten := by
  have hpr : promotes S (some p) = false := by
    rcases hres with h | h
    · simp [promotes, h]
    · simp [promotes]
      omega
  simp [downloadFileWithResume, hpr, downloadCore, hp]

/-- Witness for C3: a 1-byte partial, declared size 2, and a 200 response
carrying the body `[7], [8]`. -/
theorem download_status200_overwrites_witness :
    (downloadFileWithResume 2 (some [1]) none (.ok ⟨200, "", [[7], [8]], 0⟩)).dest =
      some [7, 8]
  ∧ (downloadFileWithResume 2 (some [1]) none (.ok ⟨200, "", [[7], [8]], 0⟩)).appendMode =
      some false
  ∧ (downloadFileWithResume 2 (some [1]) none (.ok ⟨200, "", [[7], [8]], 0⟩)).rangeSent =
      some 1 := by
  have h := download_status200_overwrites [1] 2 [[7], [8]] "" 0 none (by decide)
    (Or.inr (by decide))
  exact ⟨h.2.2.2.2, h.2.2.1, h.1⟩

/-- C2 (amended): a successful `downloadFileWithResume` alone fixes only the
file's content, not its size or digest — on the promotion path the file
is the pre-existing partial unchanged (its length is at least the
declared size but may exceed it), and on the network path it is the
received body, appended to the retained partial exactly when the server
honored the range; byte-for-byte integrity against the manifest is
established only by the `verifyChecksum` step, whose success inside
`downloadAndInstallArchive` forces the downloaded content's digest to
equal the declared `sha256`. -/
theorem download_then_verify_spec :
    (∀ (S : ℕ) (p : List Nat) (d0 : Option (List Nat)) (resp : Except String Resp),
       S ≠ 0 → S ≤ p.length →
       (downloadFileWithResume S (some p) d0 resp).result = .ok () ∧
       (downloadFileWithResume S (some p) d0 resp).dest = some p)
  ∧ (∀ (S : ℕ) (part0 d0 : Option (List Nat)) (r : Resp),
       promotes S part0 = false → r.status = 200 ∨ r.status = 206 →
       (downloadFileWithResume S part0 d0 (.ok r)).result = .ok () ∧
       (downloadFileWithResume S part0 d0 (.ok r)).dest =
         some ((if r.status = 206 ∧ 0 < (part0.map List.length).getD 0
                then part0.getD [] else []) ++ r.chunks.flatten))
  ∧ (∀ (hashHex : List Nat → String) (info : ArchiveInfo) (pS pE : ℕ)
       (st : String) (aenv : ArchiveEnv),
       (downloadAndInstallArchive hashHex info pS pE st aenv).result = .ok () →
       hashHex ((downloadAndInstallArchive hashHex info pS pE st aenv).downloadedContent.getD [])
         = info.sha256) := by
  refine ⟨?_, ?_, ?_⟩
  · intro S p d0 resp hS hlen
    have hpr : promotes S (some p) = true := by simp [promotes, hS, hlen]
    simp [downloadFileWithResume, hpr]
  · intro S part0 d0 r hpr hst
    simp only [downloadFileWithResume, hpr, Bool.false_eq_true, if_false, downloadCore]
    have hcond : ¬(r.status ≠ 200 ∧ r.status ≠ 206) := by tauto
    rw [if_neg hcond]
    rcases hst with h200 | h206
    · have : r.status ≠ 206 ∨ r.status = 206 := by tauto
      simp [h200]
    · by_cases h200 : r.status = 200
      · simp [h200]
      · have hsb : (if r.status = 200 then 0
            else (Option.map List.length part0).getD 0) =
            (Option.map List.length part0).getD 0 := by rw [if_neg h200]
        simp only [hsb, h206]
        by_cases hz : 0 < (Option.map List.length part0).getD 0
        · simp [hz]
        · simp [hz]
  · intro hashHex info pS pE st aenv
    simp only [downloadAndInstallArchive]
    generalize downloadFileWithResume info.size aenv.part0 aenv.dest0 aenv.resp = o
    obtain ⟨res, dst, pf, prog, rs, am, es⟩ := o
    cases res with
    | error e => intro hok; simp at hok
    | ok u =>
      rcases hvc : verifyChecksum hashHex (dst.getD []) info.sha256 with ce | b
      · intro hok
        simp [hvc] at hok
      · have hdig : hashHex (dst.getD []) = info.sha256 := by
          by_contra hne
          rw [verifyChecksum] at hvc
          simp only [if_neg hne] at hvc
          cases hvc
        intro _
        cases u
        rcases hx : aenv.extractRun with e | u2 <;> simp [hvc, hx, hdig]

/-- Witness for C2: the promotion path at a 1-byte declared size with a
2-byte partial, the network path at a fresh 200 download, and a full
pipeline success whose downloaded content digests to the declared hash. -/
theorem download_then_verify_spec_witness :
    ((downloadFileWithResume 1 (some [5, 6]) none (.error "e")).result = .ok () ∧
     (downloadFileWithResume 1 (some [5, 6]) none (.error "e")).dest = some [5, 6])
  ∧ ((downloadFileWithResume 3 none none (.ok ⟨200, "", [[1], [2]], 0⟩)).result = .ok () ∧
     (downloadFileWithResume 3 none none (.ok ⟨200, "", [[1], [2]], 0⟩)).dest =
       some ((if (200 : Nat) = 206 ∧ 0 < ((none : Option (List Nat)).map List.length).getD 0
              then (none : Option (List Nat)).getD [] else []) ++ [[1], [2]].flatten))
  ∧ (fun _ : List Nat => "h")
      ((downloadAndInstallArchive (fun _ => "h") ⟨"f.zip", 1, "h"⟩ 5 25 "python"
          ⟨none, none, .ok ⟨200, "", [[3]], 0⟩, .ok ()⟩).downloadedContent.getD [])
      = (⟨"f.zip", 1, "h"⟩ : ArchiveInfo).sha256 := by
  obtain ⟨hA, hB, hC⟩ := download_then_verify_spec
  exact ⟨hA 1 [5, 6] none (.error "e") (by decide) (by decide),
         hB 3 none none ⟨200, "", [[1], [2]], 0⟩ rfl (Or.inl rfl),
         hC (fun _ => "h") ⟨"f.zip", 1, "h"⟩ 5 25 "python"
           ⟨none, none, .ok ⟨200, "", [[3]], 0⟩, .ok ()⟩ rfl⟩

/-- Counterexample to C2 as stated: a partial file of 2 bytes against a
declared size of 1 is promoted without a network request; the download
completes successfully but the resulting file's byte length is 2, not
the declared 1 — and no digest is checked on this path. -/
theorem download_size_counterexample :
    (downloadFileWithResume 1 (some [0, 0]) none (.error "unused")).result = .ok ()
  ∧ (downloadFileWithResume 1 (some [0, 0]) none (.error "unused")).dest = some [0, 0]
  ∧ ([0, 0] : List Nat).length ≠ 1 :=
  ⟨rfl, rfl, by decide⟩

/-- C9: `checkSystem` never raises — each host probe sits in its own
try/catch, and a probe that throws leaves the fields it would have set at
their initialized defaults: no Python (`hasPython`/`pythonVersion`), no
GPU (`hasNvidiaGpu`/`gpuName`/`gpuVram`/`hasEnoughVram`), and the
disk-space defaults (`hasEnoughSpace: true`, `availableSpace:
"Unknown"`). -/
theorem checkSystem_soft_fail (env : ProbeEnv) :
    (env.pythonVersionRun = .error () →
      (checkSystem env).hasPython = false ∧ (checkSystem env).pythonVersion = none)
  ∧ (env.gpuNameRun = .error () →
      (checkSystem env).hasNvidiaGpu = false ∧ (checkSystem env).gpuName = none ∧
      (checkSystem env).gpuVram = 0 ∧ (checkSystem env).hasEnoughVram = false)
  ∧ (env.diskFreeRun = .error () →
      (checkSystem env).hasEnoughSpace = true ∧
      (checkSystem env).availableSpace = "Unknown") := by
  obtain ⟨w, pp, pv, gn, gv, df⟩ := env
  refine ⟨fun h => ?_, fun h => ?_, fun h => ?_⟩
  · subst h
    cases w <;> cases pp <;> cases gn <;> cases gv <;> cases df <;>
      simp [checkSystem, checkSystemWith] <;> split_ifs <;> simp
  · subst h
    cases w <;> cases pp <;> cases pv <;> cases gv <;> cases df <;>
      simp [checkSystem, checkSystemWith] <;> split_ifs <;> simp
  · subst h
    cases w <;> cases pp <;> cases pv <;> cases gn <;> cases gv <;>
      simp [checkSystem, checkSystemWith] <;> split_ifs <;> simp

/-- Witness for C9: every probe throws; all defaults survive. -/
theorem checkSystem_soft_fail_witness :
    (checkSystem ⟨true, some "py", .error (), .error (), .error (), .error ()⟩).hasPython
        = false
  ∧ (checkSystem ⟨true, some "py", .error (), .error (), .error (), .error ()⟩).gpuVram
        = 0
  ∧ (checkSystem ⟨true, some "py", .error (), .error (), .error (), .error ()⟩).hasEnoughSpace
        = true := by
  obtain ⟨h1, h2, h3⟩ :=
    checkSystem_soft_fail ⟨true, some "py", .error (), .error (), .error (), .error ()⟩
  exact ⟨(h1 rfl).1, (h2 rfl).2.2.1, (h3 rfl).1⟩

/-- C8 (amended): on the R2 installer's prober, `hasEnoughSpace` is true
exactly when the probed free byte count, divided by 2^30 and rounded to
one decimal (the `toFixed(1)` string the code compares numerically), is
at least `MIN_FREE_SPACE_GB = 10`; the legacy prober in
electron/setup.js instead requires only strictly more than 5 GB. -/
theorem checkSystem_hasEnoughSpace_iff :
    (∀ (env : ProbeEnv) (freeBytes : ℕ), env.platformWin32 = true →
       env.diskFreeRun = .ok freeBytes →
       ((checkSystem env).hasEnoughSpace = true ↔
         (MIN_FREE_SPACE_GB : ℚ) ≤
           (jsRound ((freeBytes : ℚ) / (1024 * 1024 * 1024) * 10) : ℚ) / 10))
  ∧ (∀ (env : ProbeEnv) (freeBytes : ℕ), env.platformWin32 = true →
       env.diskFreeRun = .ok freeBytes →
       ((checkSystemLegacy env).hasEnoughSpace = true ↔
         (5 : ℚ) <
           (jsRound ((freeBytes : ℚ) / (1024 * 1024 * 1024) * 10) : ℚ) / 10)) := by
  constructor <;>
  · intro env freeBytes hw hdf
    obtain ⟨w, pp, pv, gn, gv, df⟩ := env
    subst hw
    subst hdf
    simp [checkSystem, checkSystemLegacy, checkSystemWith]

/-- Witness for C8: 3 GiB free fails the R2 prober's 10 GB minimum, while
6 GiB free passes the legacy prober's 5 GB threshold. -/
theorem checkSystem_hasEnoughSpace_iff_witness :
    (checkSystem ⟨true, none, .error (), .error (), .error (), .ok (3 * 2 ^ 30)⟩).hasEnoughSpace
        = false
  ∧ (checkSystemLegacy ⟨true, none, .error (), .error (), .error (), .ok (6 * 2 ^ 30)⟩).hasEnoughSpace
        = true := by
  obtain ⟨h10, h5⟩ := checkSystem_hasEnoughSpace_iff
  have g1 := h10 ⟨true, none, .error (), .error (), .error (), .ok (3 * 2 ^ 30)⟩
    (3 * 2 ^ 30) rfl rfl
  have g2 := h5 ⟨true, none, .error (), .error (), .error (), .ok (6 * 2 ^ 30)⟩
    (6 * 2 ^ 30) rfl rfl
  constructor
  · have hno : ¬((MIN_FREE_SPACE_GB : ℚ) ≤
        (jsRound ((3 * 2 ^ 30 : ℕ) / (1024 * 1024 * 1024) * 10 : ℚ) : ℚ) / 10) := by
      norm_num [jsRound, MIN_FREE_SPACE_GB]
    cases hb : (checkSystem
        ⟨true, none, .error (), .error (), .error (), .ok (3 * 2 ^ 30)⟩).hasEnoughSpace
    · rfl
    · exact absurd (g1.mp hb) (by push_cast at hno ⊢; exact hno)
  · refine g2.mpr ?_
    norm_num [jsRound]

/-- Counterexample to C8 as stated: with 6 GiB free — below the 10 GB
minimum — the legacy prober cited by the claim reports
`hasEnoughSpace: true`. -/
theorem checkSystem_space_counterexample :
    (checkSystemLegacy ⟨true, none, .error (), .error (), .error (), .ok (6 * 2 ^ 30)⟩).hasEnoughSpace
        = true
  ∧ (6 * 2 ^ 30 : ℕ) < MIN_FREE_SPACE_GB * 2 ^ 30 := by
  constructor
  · simp [checkSystemLegacy, checkSystemWith, jsRound]
    norm_num
  · norm_num [MIN_FREE_SPACE_GB]

theorem reaches_no_terminal
    {server : String → Option Nat → Except String Resp} {range : Option Nat}
    (hred : ∀ u, ∃ r, server u range = .ok r ∧ isRedirect r = true) :
    ∀ u out, ¬ ReachesResp server range u out := by
  intro u out h
  induction h with
  | fail hsrv =>
    obtain ⟨r, hok, -⟩ := hred _
    rw [hsrv] at hok
    cases hok
  | done hsrv hnr =>
    obtain ⟨r', hok, hr'⟩ := hred _
    rw [hsrv] at hok
    cases hok
    rw [hr'] at hnr
    cases hnr
  | hop hsrv hr htail ih => exact ih

/-- C10: `makeRequest` follows 301/302 redirects by bare recursion on the
`Location` header — no hop counter, and the closed-over `headers` object
(hence the same `Range` header) is re-sent on every hop.  Against a
server whose every answer is a redirect (in particular a cyclic redirect
chain), the recursion never reaches a terminal response, so the promise
of `downloadFileWithResume` never resolves and never rejects: no
observable outcome settles. -/
theorem download_redirect_loop_never_settles
    (server : String → Option Nat → Except String Resp) (url : String)
    (S : ℕ) (p0 d0 : Option (List Nat))
    (hred : ∀ u, ∃ r, server u (rangeOf p0) = .ok r ∧ isRedirect r = true)
    (hnp : promotes S p0 = false) :
    ∀ o, ¬ Settles server url S p0 d0 o := by
  intro o hs
  rw [Settles, if_neg (by simp [hnp])] at hs
  obtain ⟨resp, hr, -⟩ := hs
  exact reaches_no_terminal hred url resp hr

/-- Witness for C10: a two-URL cyclic redirect server. -/
theorem download_redirect_loop_never_settles_witness :
    ¬ Settles (fun u _ => .ok ⟨301, if u = "a" then "b" else "a", [], 0⟩)
      "a" 1 none none
      { result := .ok (), dest := none, partFile := none, progress := [],
        rangeSent := none, appendMode := none, effStart := none } :=
  download_redirect_loop_never_settles
    (fun u _ => .ok ⟨301, if u = "a" then "b" else "a", [], 0⟩)
    "a" 1 none none (fun u => ⟨⟨301, if u = "a" then "b" else "a", [], 0⟩, rfl, rfl⟩) rfl _

theorem runSetup_result_eq (env : SetupEnv) :
    (runSetup env).result = (runSetupBody env).1 ∧
    (runSetup env).marker = (runSetupBody env).2.1 ∧
    ((runSetupBody env).1 = .ok () →
      (runSetup env).events = (runSetupBody env).2.2) := by
  unfold runSetup
  rcases h : runSetupBody env with ⟨r, mk, evs⟩
  cases r with
  | error e => exact ⟨rfl, rfl, fun hc => by cases hc⟩
  | ok u => cases u; exact ⟨rfl, rfl, fun _ => rfl⟩

theorem runSetupBody_marker_spec (env : SetupEnv) :
    ((runSetupBody env).1 = .ok () →
      ∃ mk, (runSetupBody env).2.1 = some mk ∧ mk.setupVersion = SETUP_VERSION) ∧
    (∀ e, (runSetupBody env).1 = .error e → (runSetupBody env).2.1 = none) := by
  unfold runSetupBody
  rcases env.manifestRun with e | m
  · simp
  · simp only
    rcases (archiveKeys env.useGpu m).find? (fun k => (m.find k).isNone) with _ | k
    · simp only
      rcases (installLoop env m (archiveKeys env.useGpu m) 0).1 with e | u
      · simp
      · cases u
        simp only
        rcases env.fixupRun with e | u
        · simp
        · cases u
          simp only
          rcases env.markerRun with e | u
          · simp
          · cases u
            simp [SETUP_VERSION]
    · simp

/-- C1: a `runSetup` run that ends in the error state — any exception,
including the cooperative-cancellation throw — never writes the
`.setup-complete` marker, and a run that reaches `complete` writes it
with `setupVersion` equal to `SETUP_VERSION` (2). -/
theorem runSetup_marker_spec (env : SetupEnv) :
    (∀ e, (runSetup env).result = .error e → (runSetup env).marker = none) ∧
    ((runSetup env).result = .ok () →
      ∃ mk, (runSetup env).marker = some mk ∧ mk.setupVersion = SETUP_VERSION) := by
  obtain ⟨hres, hmk, -⟩ := runSetup_result_eq env
  obtain ⟨hok, herr⟩ := runSetupBody_marker_spec env
  constructor
  · intro e he
    rw [hres] at he
    rw [hmk]
    exact herr e he
  · intro he
    rw [hres] at he
    rw [hmk]
    exact hok he

/-- Witness for C1: a failing run (unreachable manifest endpoint) leaves no
marker; a fully successful run writes a version-2 marker. -/
theorem runSetup_marker_spec_witness :
    (runSetup envFailEx).marker = none ∧
    (∃ mk, (runSetup envOkEx).marker = some mk ∧ mk.setupVersion = SETUP_VERSION) :=
  ⟨(runSetup_marker_spec envFailEx).1
      "Cannot reach download server: ENOTFOUND. Check your internet connection." rfl,
   (runSetup_marker_spec envOkEx).2 rfl⟩

theorem progressOf_mem {total : ℕ} :
    ∀ (cs : List (List Nat)) (start : ℕ), ∀ pr ∈ progressOf start total cs,
      start ≤ pr.1 ∧ pr.2 = total := by
  intro cs
  induction cs with
  | nil => intro start pr h; cases h
  | cons c cs ih =>
    intro start pr h
    rcases (List.mem_cons).mp h with h | h
    · subst h
      exact ⟨Nat.le_add_right _ _, rfl⟩
    · obtain ⟨h1, h2⟩ := ih (start + c.length) pr h
      exact ⟨le_trans (Nat.le_add_right _ _) h1, h2⟩

theorem progressOf_chain {total : ℕ} :
    ∀ (cs : List (List Nat)) (start : ℕ),
      List.Chain' (fun a b : ℕ × ℕ => a.1 ≤ b.1 ∧ a.2 = b.2)
        (progressOf start total cs) := by
  intro cs
  induction cs with
  | nil => intro start; simp [progressOf]
  | cons c cs ih =>
    intro start
    rw [progressOf]
    refine List.chain'_cons'.mpr ⟨?_, ih (start + c.length)⟩
    intro y hy
    obtain ⟨h1, h2⟩ := progressOf_mem cs (start + c.length) y (List.mem_of_mem_head? hy)
    exact ⟨h1, h2.symm⟩

theorem download_progress_cases (S : ℕ) (p0 d0 : Option (List Nat))
    (resp : Except String Resp) :
    (downloadFileWithResume S p0 d0 resp).progress = [] ∨
    ∃ st tot cs,
      (downloadFileWithResume S p0 d0 resp).progress = progressOf st tot cs := by
  unfold downloadFileWithResume downloadCore
  rcases resp with e | r
  · split_ifs <;> exact Or.inl rfl
  · dsimp only
    split_ifs <;> first | exact Or.inl rfl | exact Or.inr ⟨_, _, _, rfl⟩

theorem download_progress_chain (S : ℕ) (p0 d0 : Option (List Nat))
    (resp : Except String Resp) :
    List.Chain' (fun a b : ℕ × ℕ => a.1 ≤ b.1 ∧ a.2 = b.2)
      ((downloadFileWithResume S p0 d0 resp).progress) := by
  rcases download_progress_cases S p0 d0 resp with h | ⟨st, tot, cs, h⟩ <;> rw [h]
  · simp
  · exact progressOf_chain cs st

theorem pct70_ge {pS pE : ℕ} (hps : pS ≤ pE) (d t : ℕ) :
    (pS : ℤ) ≤ pct70 pS pE d t := by
  have hΔ : (0 : ℚ) ≤ (pE : ℚ) - (pS : ℚ) := by
    rw [sub_nonneg]
    exact_mod_cast hps
  have hx : (0 : ℚ) ≤ (d : ℚ) / (t : ℚ) * ((pE : ℚ) - (pS : ℚ)) * (7/10) := by positivity
  calc (pS : ℤ) = jsRound ((pS : ℚ)) := (jsRound_natCast pS).symm
    _ ≤ pct70 pS pE d t := jsRound_mono (by linarith)

theorem pct70_mono {pS pE : ℕ} (hps : pS ≤ pE) {d d' t : ℕ} (hd : d ≤ d') :
    pct70 pS pE d t ≤ pct70 pS pE d' t := by
  have hΔ : (0 : ℚ) ≤ (pE : ℚ) - (pS : ℚ) := by
    rw [sub_nonneg]
    exact_mod_cast hps
  have hdiv : (d : ℚ) / (t : ℚ) ≤ (d' : ℚ) / (t : ℚ) := by
    rcases Nat.eq_zero_or_pos t with ht | ht
    · simp [ht]
    · have htq : (0 : ℚ) ≤ (t : ℚ) := by positivity
      exact div_le_div_of_nonneg_right (by exact_mod_cast hd) htq
  apply jsRound_mono
  have : (d : ℚ) / (t : ℚ) * ((pE : ℚ) - (pS : ℚ)) * (7/10) ≤
      (d' : ℚ) / (t : ℚ) * ((pE : ℚ) - (pS : ℚ)) * (7/10) := by
    apply mul_le_mul_of_nonneg_right _ (by norm_num)
    exact mul_le_mul_of_nonneg_right hdiv hΔ
  linarith

theorem pct70_le_r70 {pS pE : ℕ} (hps : pS ≤ pE) {d t : ℕ} (hdt : d ≤ t) :
    pct70 pS pE d t ≤ jsRound ((pS : ℚ) + ((pE : ℚ) - (pS : ℚ)) * (7/10)) := by
  have hΔ : (0 : ℚ) ≤ (pE : ℚ) - (pS : ℚ) := by
    rw [sub_nonneg]
    exact_mod_cast hps
  have hdiv : (d : ℚ) / (t : ℚ) ≤ 1 := by
    rcases Nat.eq_zero_or_pos t with ht | ht
    · simp [ht]
    · have htq : (0 : ℚ) < (t : ℚ) := by exact_mod_cast ht
      rw [div_le_one htq]
      exact_mod_cast hdt
  apply jsRound_mono
  have : (d : ℚ) / (t : ℚ) * ((pE : ℚ) - (pS : ℚ)) * (7/10) ≤
      ((pE : ℚ) - (pS : ℚ)) * (7/10) := by
    have := mul_le_mul_of_nonneg_right hdiv hΔ
    rw [one_mul] at this
    exact mul_le_mul_of_nonneg_right this (by norm_num)
  linarith

theorem archive_pcts_chain (pS pE : ℕ) (hps : pS ≤ pE) (prog : List (ℕ × ℕ))
    (hchain : List.Chain' (fun a b : ℕ × ℕ => a.1 ≤ b.1 ∧ a.2 = b.2) prog)
    (hb : ∀ pr ∈ prog, pr.1 ≤ pr.2) :
    List.Chain' (· ≤ ·)
      ((pS : ℤ) :: ((prog.map fun p => pct70 pS pE p.1 p.2) ++
        [jsRound ((pS : ℚ) + ((pE : ℚ) - (pS : ℚ)) * (7/10)),
         jsRound ((pS : ℚ) + ((pE : ℚ) - (pS : ℚ)) * (8/10)), (pE : ℤ)]))
  ∧ ∀ x ∈ (pS : ℤ) :: ((prog.map fun p => pct70 pS pE p.1 p.2) ++
        [jsRound ((pS : ℚ) + ((pE : ℚ) - (pS : ℚ)) * (7/10)),
         jsRound ((pS : ℚ) + ((pE : ℚ) - (pS : ℚ)) * (8/10)), (pE : ℤ)]),
      (pS : ℤ) ≤ x ∧ x ≤ (pE : ℤ) := by
  have hΔ : (0 : ℚ) ≤ (pE : ℚ) - (pS : ℚ) := by
    rw [sub_nonneg]
    exact_mod_cast hps
  have hr70ge : (pS : ℤ) ≤ jsRound ((pS : ℚ) + ((pE : ℚ) - (pS : ℚ)) * (7/10)) := by
    calc (pS : ℤ) = jsRound ((pS : ℚ)) := (jsRound_natCast pS).symm
      _ ≤ _ := jsRound_mono (by nlinarith)
  have hr7080 : jsRound ((pS : ℚ) + ((pE : ℚ) - (pS : ℚ)) * (7/10)) ≤
      jsRound ((pS : ℚ) + ((pE : ℚ) - (pS : ℚ)) * (8/10)) := by
    apply jsRound_mono
    nlinarith
  have hr80pE : jsRound ((pS : ℚ) + ((pE : ℚ) - (pS : ℚ)) * (8/10)) ≤ (pE : ℤ) := by
    calc jsRound ((pS : ℚ) + ((pE : ℚ) - (pS : ℚ)) * (8/10)) ≤ jsRound ((pE : ℚ)) :=
          jsRound_mono (by nlinarith)
      _ = (pE : ℤ) := jsRound_natCast pE
  -- bounds for every element
  have hmemb : ∀ x ∈ (pS : ℤ) :: ((prog.map fun p => pct70 pS pE p.1 p.2) ++
        [jsRound ((pS : ℚ) + ((pE : ℚ) - (pS : ℚ)) * (7/10)),
         jsRound ((pS : ℚ) + ((pE : ℚ) - (pS : ℚ)) * (8/10)), (pE : ℤ)]),
      (pS : ℤ) ≤ x ∧ x ≤ (pE : ℤ) := by
    intro x hx
    rcases List.mem_cons.mp hx with hx | hx
    · subst hx
      exact ⟨le_refl _, by exact_mod_cast hps⟩
    rcases List.mem_append.mp hx with hx | hx
    · obtain ⟨p, hp, hpx⟩ := List.mem_map.mp hx
      subst hpx
      exact ⟨pct70_ge hps p.1 p.2,
             le_trans (pct70_le_r70 hps (hb p hp)) (le_trans hr7080 hr80pE)⟩
    · simp only [List.mem_cons, List.not_mem_nil, or_false] at hx
      rcases hx with hx | hx | hx
      · subst hx
        exact ⟨hr70ge, le_trans hr7080 hr80pE⟩
      · subst hx
        exact ⟨le_trans hr70ge hr7080, hr80pE⟩
      · subst hx
        exact ⟨by exact_mod_cast hps, le_refl _⟩
  refine ⟨?_, hmemb⟩
  refine List.chain'_cons'.mpr ⟨?_, ?_⟩
  · intro y hy
    exact (hmemb y (List.mem_cons_of_mem _
      (List.mem_of_mem_head? hy))).1
  refine List.Chain'.append ?_ ?_ ?_
  · -- the mapped download percents are nondecreasing
    rw [List.chain'_map]
    refine hchain.imp ?_
    intro a b hab
    have := pct70_mono (t := b.2) hps hab.1
    rwa [hab.2]
  · exact List.chain'_cons.mpr ⟨hr7080, List.chain'_cons.mpr ⟨hr80pE, List.chain'_singleton _⟩⟩
  · intro x hx y hy
    have hxm : x ∈ (prog.map fun p => pct70 pS pE p.1 p.2) := List.mem_of_mem_getLast? hx
    obtain ⟨p, hp, hpx⟩ := List.mem_map.mp hxm
    subst hpx
    have hy' : y = jsRound ((pS : ℚ) + ((pE : ℚ) - (pS : ℚ)) * (7/10)) := by
      simp at hy
      exact hy.symm
    rw [hy']
    exact pct70_le_r70 hps (hb p hp)

theorem archive_events_spec (hashHex : List Nat → String) (info : ArchiveInfo)
    (pS pE : ℕ) (st : String) (aenv : ArchiveEnv) (hps : pS ≤ pE)
    (hok : (downloadAndInstallArchive hashHex info pS pE st aenv).result = .ok ())
    (hb : ∀ pr ∈ (downloadFileWithResume info.size aenv.part0 aenv.dest0 aenv.resp).progress,
        pr.1 ≤ pr.2) :
    List.Chain' (· ≤ ·)
      ((downloadAndInstallArchive hashHex info pS pE st aenv).events.map Prod.snd)
  ∧ ∀ x ∈ (downloadAndInstallArchive hashHex info pS pE st aenv).events.map Prod.snd,
      (pS : ℤ) ≤ x ∧ x ≤ (pE : ℤ) := by
  have hch := download_progress_chain info.size aenv.part0 aenv.dest0 aenv.resp
  simp only [downloadAndInstallArchive] at hok ⊢
  generalize hgen :
    downloadFileWithResume info.size aenv.part0 aenv.dest0 aenv.resp = o at hok hb hch ⊢
  obtain ⟨res, dst, pf, prog, rs, am, es⟩ := o
  cases res with
  | error e => simp at hok
  | ok u =>
    cases u
    rcases hvc : verifyChecksum hashHex (dst.getD []) info.sha256 with ce | b
    · simp [hvc] at hok
    · rcases hx : aenv.extractRun with e | u2
      · simp [hvc, hx] at hok
      · cases u2
        simp only [hvc, hx]
        have := archive_pcts_chain pS pE hps prog hch hb
        simp only [List.map_append, List.map_cons, List.map_map, List.map_nil] at this ⊢
        simpa [Function.comp] using this

theorem rangesOk_le : ∀ (ks : List String) (lo hi : ℤ), rangesOk ks lo hi → lo ≤ hi := by
  intro ks
  induction ks with
  | nil => intro lo hi h; exact h
  | cons k ks ih =>
    intro lo hi h
    obtain ⟨h1, h2, h3⟩ := h
    exact le_trans h1 (le_trans h2 (ih _ _ h3))

theorem installLoop_events_spec (env : SetupEnv) (m : Manifest) :
    ∀ (ks : List String) (i : ℕ) (lo hi : ℤ),
      (installLoop env m ks i).1 = .ok () →
      rangesOk ks lo hi →
      (∀ k ∈ ks, ∀ inf : ArchiveInfo, m.find k = some inf →
        ∀ pr ∈ (downloadFileWithResume inf.size (env.archEnv k).part0
                  (env.archEnv k).dest0 (env.archEnv k).resp).progress, pr.1 ≤ pr.2) →
      List.Chain' (· ≤ ·) (((installLoop env m ks i).2).map Prod.snd) ∧
      ∀ x ∈ ((installLoop env m ks i).2).map Prod.snd, lo ≤ x ∧ x ≤ hi := by
  intro ks
  induction ks with
  | nil =>
    intro i lo hi _ _ _
    simp [installLoop]
  | cons k ks ih =>
    intro i lo hi hok hro hb
    obtain ⟨hro1, hro2, hro3⟩ := hro
    have hhi : ((stageOf k).2.2 : ℤ) ≤ hi := rangesOk_le ks _ hi hro3
    simp only [installLoop] at hok ⊢
    by_cases hab : env.abortedAt i
    · simp [hab] at hok
    · simp only [hab, Bool.false_eq_true, if_false] at hok ⊢
      rcases hfind : m.find k with _ | inf
      · simp [hfind] at hok
      · simp only [hfind] at hok ⊢
        rcases hor : (downloadAndInstallArchive env.hashHex inf (stageOf k).2.1
            (stageOf k).2.2 (stageOf k).1 (env.archEnv k)).result with e | u
        · simp [hor] at hok
        · cases u
          simp only [hor] at hok ⊢
          have hps : (stageOf k).2.1 ≤ (stageOf k).2.2 := by exact_mod_cast hro2
          have harch := archive_events_spec env.hashHex inf (stageOf k).2.1
            (stageOf k).2.2 (stageOf k).1 (env.archEnv k) hps hor
            (hb k (List.mem_cons_self k ks) inf hfind)
          have hrest := ih (i + 1) ((stageOf k).2.2 : ℤ) hi hok hro3
            (fun k' hk' inf' hf' => hb k' (List.mem_cons_of_mem k hk') inf' hf')
          constructor
          · rw [List.map_append]
            refine List.Chain'.append harch.1 hrest.1 ?_
            intro x hx y hy
            have hx' := (harch.2 x (List.mem_of_mem_getLast? hx)).2
            have hy' := (hrest.2 y (List.mem_of_mem_head? hy)).1
            exact le_trans hx' hy'
          · rw [List.map_append]
            intro x hx
            rcases List.mem_append.mp hx with hx | hx
            · obtain ⟨hx1, hx2⟩ := harch.2 x hx
              exact ⟨le_trans hro1 hx1, le_trans hx2 hhi⟩
            · obtain ⟨hx1, hx2⟩ := hrest.2 x hx
              exact ⟨le_trans hro1 (le_trans hro2 hx1), hx2⟩

/-- C4 (amended): across every successful `runSetup` run in which no
progress callback ever reports more downloaded bytes than its total —
i.e. for each archive the run selects from the fetched manifest, the
served body stays within that archive's declared size — the emitted
`percent` values are non-decreasing, and the final event of the run is
`('complete', 100)`. -/
theorem runSetup_progress_monotone (env : SetupEnv)
    (hok : (runSetup env).result = .ok ())
    (hbound : ∀ m, env.manifestRun = .ok m →
        ∀ k ∈ archiveKeys env.useGpu m, ∀ inf : ArchiveInfo, m.find k = some inf →
        ∀ pr ∈ (downloadFileWithResume inf.size (env.archEnv k).part0
                  (env.archEnv k).dest0 (env.archEnv k).resp).progress, pr.1 ≤ pr.2) :
    List.Chain' (· ≤ ·) ((runSetup env).events.map Prod.snd) ∧
    (runSetup env).events.getLast? = some ("complete", 100) := by
  obtain ⟨hres, -, hevf⟩ := runSetup_result_eq env
  have hb1 : (runSetupBody env).1 = .ok () := by rw [← hres]; exact hok
  rw [hevf hb1]
  rcases hm : env.manifestRun with e | m
  · rw [runSetupBody] at hb1
    simp [hm] at hb1
  · rw [runSetupBody] at hb1 ⊢
    simp only [hm] at hb1 ⊢
    rcases hfind : (archiveKeys env.useGpu m).find? (fun k => (m.find k).isNone) with _ | k
    · simp only [hfind] at hb1 ⊢
      rcases hloop : (installLoop env m (archiveKeys env.useGpu m) 0).1 with e | u
      · simp [hloop] at hb1
      · cases u
        simp only [hloop] at hb1 ⊢
        rcases hfix : env.fixupRun with e | u
        · simp [hfix] at hb1
        · cases u
          simp only [hfix] at hb1 ⊢
          rcases hmk : env.markerRun with e | u
          · simp [hmk] at hb1
          · cases u
            simp only [hmk]
            have hrng : rangesOk (archiveKeys env.useGpu m) 2 96 := by
              rcases Bool.eq_false_or_eq_true env.useGpu with hg | hg <;>
                by_cases hcpu : (m.find "pytorch-cpu").isSome <;>
                  simp [archiveKeys, hg, hcpu, rangesOk, stageOf] <;> norm_num
            have hl := installLoop_events_spec env m (archiveKeys env.useGpu m) 0 2 96
              hloop hrng (hbound m hm)
            constructor
            · simp only [List.cons_append, List.append_assoc, List.map_cons,
                List.map_append, List.singleton_append]
              refine List.chain'_cons'.mpr ⟨?_, ?_⟩
              · intro y hy
                have hym := List.mem_of_mem_head? hy
                rcases List.mem_append.mp hym with hym | hym
                · exact (hl.2 y hym).1
                · simp only [List.map_cons, List.map_nil] at hym
                  rcases List.mem_cons.mp hym with h | h
                  · rw [h]; norm_num
                  · rcases List.mem_cons.mp h with h | h
                    · rw [h]; norm_num
                    · cases h
              · refine List.Chain'.append hl.1 ?_ ?_
                · simp only [List.map_cons, List.map_nil]
                  exact List.chain'_cons.mpr ⟨by norm_num, List.chain'_singleton _⟩
                · intro x hx y hy
                  have hx' := (hl.2 x (List.mem_of_mem_getLast? hx)).2
                  simp only [List.map_cons, List.head?_cons, Option.mem_some_iff] at hy
                  rw [← hy]
                  exact le_trans hx' (by norm_num)
            · rw [show (("python", (2:ℤ)) :: (installLoop env m (archiveKeys env.useGpu m) 0).2
                  ++ [("model", (96:ℤ))]) ++ [("complete", (100:ℤ))] =
                  (("python", (2:ℤ)) :: (installLoop env m (archiveKeys env.useGpu m) 0).2
                  ++ [("model", (96:ℤ))]) ++ [("complete", (100:ℤ))] from rfl]
              exact List.getLast?_concat _
    · simp [hfind] at hb1

/-- Witness for C4: a fully successful run whose downloads stay within the
declared sizes emits non-decreasing percents ending in `('complete', 100)`. -/
theorem runSetup_progress_monotone_witness :
    List.Chain' (· ≤ ·) ((runSetup envOkEx).events.map Prod.snd) ∧
    (runSetup envOkEx).events.getLast? = some ("complete", 100) :=
  runSetup_progress_monotone envOkEx rfl (by
    intro m hm k hk inf hf pr hpr
    simp [envOkEx, downloadFileWithResume, downloadCore, promotes, progressOf] at hpr)

/-- Counterexample to C4 as stated: a run that succeeds (the digest check
passes) although the `python-core` server body is longer than the
manifest-declared size; the download callback then drives the percent to
33 inside the 5–25 sub-range, and the following verify-stage event drops
back to 19 — the emitted sequence is not non-decreasing. -/
theorem runSetup_progress_counterexample :
    (runSetup envC4Ex).result = .ok () ∧
    ¬ List.Chain' (· ≤ ·) ((runSetup envC4Ex).events.map Prod.snd) := by
  refine ⟨rfl, ?_⟩
  have hev : (runSetup envC4Ex).events.map Prod.snd =
      [2, 5, 33, 19, 21, 25, 25, 46, 49, 55, 55, 66, 67, 70, 70, 88, 90, 95, 96, 100] := by
    simp [runSetup, runSetupBody, envC4Ex, mOkEx, installLoop, archiveKeys,
      downloadAndInstallArchive, downloadFileWithResume, downloadCore, promotes,
      progressOf, verifyChecksum, Manifest.find, stageOf, pct70, jsRound, List.lookup]
    norm_num
  rw [hev]
  intro h
  have h33 : (33 : ℤ) ≤ 19 :=
    (List.chain'_cons.mp (List.chain'_cons.mp (List.chain'_cons.mp h).2).2).1
  omega

end VoiceCraft
